import Mathlib

/-!
Verification of the Overnads game-bot core (src/main.py, src/overnads.py).

The network is modelled by an oracle: a list of per-attempt outcomes, one
entry consumed by every physical HTTP attempt (an exhausted oracle behaves
as a network exception, i.e. a transport failure).  Randomness
(`random.randint`) is modelled by a seed list; `randint lo hi seed`
realises Python's contract that the result lies in `[lo, hi]`.  All
side effects (HTTP attempts, `time.sleep`, log lines) are recorded in a
single chronological event list, and `sys.exit` is modelled by a
distinguished result that every caller propagates.

A semantic point carried over from the source: `requests.Response.__bool__`
returns `self.ok`, which is `status_code < 400`; therefore every Python
condition of the form `if response and ...` contributes a `status < 400`
conjunct in the embedding.
-/

namespace Overnads

/-- The four account-stats fields the program reads via `dict.get`:
`username`, `overPoints`, `coins`, `tickets`.  `none` models an absent key. -/
structure StatsJson where
  username : Option String
  overPoints : Option Int
  coins : Option Int
  tickets : Option Int
deriving DecidableEq

/-- Outcome of one physical HTTP attempt: either a network-level exception
(`requests.exceptions.RequestException`) or a response with a status code,
a body text, and — when the body parses as a JSON object — the four fields
the program ever reads from it (`none` models a `json.JSONDecodeError`). -/
inductive Outcome where
  | exn : Outcome
  | resp : Nat → String → Option StatsJson → Outcome
deriving DecidableEq

/-- One entry of a `collectedItems` list: `{"type": ..., "count": ...}`. -/
structure Item where
  type : String
  count : Nat
deriving DecidableEq

/-- A JSON body sent to the game-end endpoint:
`{"gameId"?: ..., "overPoints": ..., "collectedItems": [...]}`. -/
structure Payload where
  gameId : Option String
  overPoints : Nat
  collectedItems : List Item
deriving DecidableEq

/-- A single HTTP attempt as issued on the wire. -/
structure Call where
  method : String
  url : String
  payload : Option Payload
deriving DecidableEq

/-- The log lines the program emits (console/logging output). -/
inductive LogEvent where
  | criticalAuth : LogEvent
  | serverError : Nat → LogEvent
  | networkError : LogEvent
  | requestFailed : String → LogEvent
  | stuckParseFail : LogEvent
  | clearAttempt : LogEvent
  | clearStuckOk : LogEvent
  | clearStuckFail : LogEvent
  | selfHealFail : LogEvent
  | healOk : LogEvent
  | startFail : LogEvent
  | gameStarted : LogEvent
  | endingGame : LogEvent
  | gameFinished : LogEvent
  | noTickets : LogEvent
  | statsUpdated : LogEvent
  | statsParseFail : LogEvent
  | statsFetchFail : LogEvent
deriving DecidableEq

/-- A chronological trace event: an HTTP attempt, a `time.sleep`, or a log
line. -/
inductive Event where
  | call : Call → Event
  | sleep : Nat → Event
  | log : LogEvent → Event
deriving DecidableEq

/-- The HTTP attempts of a trace, in order. -/
def callsOf (evs : List Event) : List Call :=
  evs.filterMap fun e =>
    match e with
    | Event.call c => Option.some c
    | _ => Option.none

/-- The sleep durations of a trace, in order. -/
def sleepsOf (evs : List Event) : List Nat :=
  evs.filterMap fun e =>
    match e with
    | Event.sleep n => Option.some n
    | _ => Option.none

/-- Result of `send_request`: process termination via `sys.exit(1)` (on a
401), a response handed back to the caller, or `None` after exhausting all
retries. -/
inductive ExecResult where
  | exit : ExecResult
  | got : Nat → String → Option StatsJson → ExecResult
  | null : ExecResult
deriving DecidableEq

/-- Trace of one `send_request` invocation: its result, the unconsumed part
of the network oracle, and the events it produced. -/
structure ReqTrace where
  result : ExecResult
  rest : List Outcome
  events : List Event
deriving DecidableEq

/-- Consume one oracle entry; an exhausted oracle acts as a network
exception. -/
def takeOutcome : List Outcome → Outcome × List Outcome
  | [] => (Outcome.exn, [])
  | o :: rest => (o, rest)

/-- Consume one random seed; an exhausted seed list yields 0. -/
def takeRng : List Nat → Nat × List Nat
  | [] => (0, [])
  | n :: rest => (n, rest)

/-- `random.randint(lo, hi)`: a value in `[lo, hi]` determined by the next
seed. -/
def randint (lo hi seed : Nat) : Nat := lo + seed % (hi + 1 - lo)

/-- `main.py send_request(method, url, payload, retries=3, backoff=3)`:
per attempt, a 401 logs a critical error and exits the process; any other
status below 500 is returned at once; a 5xx or a network exception logs a
warning, sleeps `backoff` seconds (flat) and moves to the next attempt;
after `retries` failed attempts it logs the failing URL and returns
`None`. -/
def send_request (method url : String) (payload : Option Payload)
    (retries backoff : Nat) (oracle : List Outcome) : ReqTrace :=
  match retries with
  | 0 => ⟨ExecResult.null, oracle, [Event.log (LogEvent.requestFailed url)]⟩
  | Nat.succ r =>
    let pr := takeOutcome oracle
    let c : Call := ⟨method, url, payload⟩
    match pr.1 with
    | Outcome.resp s txt j =>
      if s = 401 then
        ⟨ExecResult.exit, pr.2, [Event.call c, Event.log LogEvent.criticalAuth]⟩
      else if s < 500 then
        ⟨ExecResult.got s txt j, pr.2, [Event.call c]⟩
      else
        let t := send_request method url payload r backoff pr.2
        ⟨t.result, t.rest,
          Event.call c :: Event.log (LogEvent.serverError s) ::
            Event.sleep backoff :: t.events⟩
    | Outcome.exn =>
        let t := send_request method url payload r backoff pr.2
        ⟨t.result, t.rest,
          Event.call c :: Event.log LogEvent.networkError ::
            Event.sleep backoff :: t.events⟩

/-- `overnads.py send_request_with_retry`, attempt `i` onwards with
`remaining` attempts left: identical classification to `send_request` but
the delay after the `i`-th attempt (0-based) is `backoff_factor * (i + 1)`
(linear backoff). -/
def send_request_with_retry_go (url method : String) (payload : Option Payload)
    (backoffFactor : Nat) : Nat → Nat → List Outcome → ReqTrace
  | _, 0, oracle => ⟨ExecResult.null, oracle, [Event.log (LogEvent.requestFailed url)]⟩
  | i, Nat.succ r, oracle =>
    let pr := takeOutcome oracle
    let c : Call := ⟨method, url, payload⟩
    match pr.1 with
    | Outcome.resp s txt j =>
      if s = 401 then
        ⟨ExecResult.exit, pr.2, [Event.call c, Event.log LogEvent.criticalAuth]⟩
      else if s < 500 then
        ⟨ExecResult.got s txt j, pr.2, [Event.call c]⟩
      else
        let t := send_request_with_retry_go url method payload backoffFactor (i + 1) r pr.2
        ⟨t.result, t.rest,
          Event.call c :: Event.log (LogEvent.serverError s) ::
            Event.sleep (backoffFactor * (i + 1)) :: t.events⟩
    | Outcome.exn =>
        let t := send_request_with_retry_go url method payload backoffFactor (i + 1) r pr.2
        ⟨t.result, t.rest,
          Event.call c :: Event.log LogEvent.networkError ::
            Event.sleep (backoffFactor * (i + 1)) :: t.events⟩

/-- `overnads.py send_request_with_retry(url, method="POST", payload=None,
retries=3, backoff_factor=3)`. -/
def send_request_with_retry (url method : String) (payload : Option Payload)
    (retries backoffFactor : Nat) (oracle : List Outcome) : ReqTrace :=
  send_request_with_retry_go url method payload backoffFactor 0 retries oracle

/-- The fixed API endpoints. -/
def urlUserProfile : String := "https://app.overnads.xyz/api/auth/me"

def urlGameStart : String := "https://app.overnads.xyz/api/game/start"

def urlGameEnd : String := "https://app.overnads.xyz/api/game/end"

/-- An attempt outcome that does not make `send_request` return: a network
exception or a 5xx response. -/
def retryable : Outcome → Bool
  | Outcome.exn => true
  | Outcome.resp s _ _ => decide (500 ≤ s)

/-- The regex character class `[a-f0-9\-]`. -/
def isHexDash (c : Char) : Bool :=
  (decide ('a' ≤ c) && decide (c ≤ 'f')) ||
    (decide ('0' ≤ c) && decide (c ≤ '9')) || c == '-'

/-- The literal part of the pattern `Game ID: ([a-f0-9\-]+)`. -/
def gameIdMarker : List Char := ['G', 'a', 'm', 'e', ' ', 'I', 'D', ':', ' ']

/-- Try to match `Game ID: ([a-f0-9\-]+)` at the head of `cs`; on success
return the (greedy) capture group. -/
def matchGameIdAt (cs : List Char) : Option (List Char) :=
  if gameIdMarker.isPrefixOf cs then
    let run := (cs.drop gameIdMarker.length).takeWhile isHexDash
    if run.isEmpty then Option.none else Option.some run
  else Option.none

/-- `re.search`: the leftmost match of the pattern. -/
def searchGameId : List Char → Option (List Char)
  | [] => Option.none
  | c :: cs =>
    match matchGameIdAt (c :: cs) with
    | Option.some r => Option.some r
    | Option.none => searchGameId cs

/-- `re.search(r'Game ID: ([a-f0-9\-]+)', text)` with the capture group
extracted. -/
def extractGameId (s : String) : Option String :=
  Option.map String.mk (searchGameId s.data)

/-- Contiguous-sublist test: does `needle` occur at some position? -/
def isSubListOf (needle : List Char) : List Char → Bool
  | [] => needle.isEmpty
  | c :: cs => needle.isPrefixOf (c :: cs) || isSubListOf needle cs

/-- Python's `needle in hay` substring test. -/
def containsSub (needle hay : String) : Bool :=
  isSubListOf needle.data hay.data

/-- Trace of one `handle_stuck_game` invocation.  `exited` is set when the
inner `send_request` terminated the process (401); otherwise `ok` is the
boolean the function returns. -/
structure HealTrace where
  exited : Bool
  ok : Bool
  rest : List Outcome
  rngRest : List Nat
  events : List Event
deriving DecidableEq

/-- `main.py handle_stuck_game(error_response_text)`: extract a stuck game
id from the text; with no match, log and return `False` without any network
call; otherwise POST a game-end payload `{gameId, overPoints ∈ [90,110],
collectedItems: []}` and return whether the (truthy) response had status
200 or 201. -/
def handle_stuck_game (text : String) (oracle : List Outcome) (rng : List Nat) :
    HealTrace :=
  match extractGameId text with
  | Option.none => ⟨false, false, oracle, rng, [Event.log LogEvent.stuckParseFail]⟩
  | Option.some gid =>
    let pr := takeRng rng
    let payload : Payload := ⟨Option.some gid, randint 90 110 pr.1, []⟩
    let t := send_request "POST" urlGameEnd (Option.some payload) 3 3 oracle
    let evs := Event.log LogEvent.clearAttempt :: t.events
    match t.result with
    | ExecResult.exit => ⟨true, false, t.rest, pr.2, evs⟩
    | ExecResult.got s _ _ =>
      -- `if end_response and end_response.status_code in [200, 201]`
      if s < 400 ∧ (s = 200 ∨ s = 201) then
        ⟨false, true, t.rest, pr.2, evs ++ [Event.log LogEvent.clearStuckOk]⟩
      else
        ⟨false, false, t.rest, pr.2, evs ++ [Event.log LogEvent.clearStuckFail]⟩
    | ExecResult.null =>
        ⟨false, false, t.rest, pr.2, evs ++ [Event.log LogEvent.clearStuckFail]⟩

/-- Trace of one loop iteration of `play_all_games`.  `played` records
whether the iteration reached the success print (`games_played_successfully
+= 1` in overnads.py). -/
structure TicketTrace where
  exited : Bool
  played : Bool
  rest : List Outcome
  rngRest : List Nat
  events : List Event
deriving DecidableEq

/-- The started-game tail of a loop iteration (main.py lines 176-188):
sleep 30 s, then POST a game-end payload with `overPoints ∈ [90,110]` and
one coin item (count in `[1,4]`) and one ticket item (count in `[0,4]`);
the end response itself is ignored unless it exits the process. -/
def finish_game (oracle : List Outcome) (rng : List Nat) : TicketTrace :=
  let pr := takeRng rng
  let cr := takeRng pr.2
  let tr := takeRng cr.2
  let payload : Payload :=
    ⟨Option.none, randint 90 110 pr.1,
      [⟨"coin", randint 1 4 cr.1⟩, ⟨"ticket", randint 0 4 tr.1⟩]⟩
  let t := send_request "POST" urlGameEnd (Option.some payload) 3 3 oracle
  let evs := Event.log LogEvent.gameStarted :: Event.sleep 30 ::
    Event.log LogEvent.endingGame :: t.events
  match t.result with
  | ExecResult.exit => ⟨true, false, t.rest, tr.2, evs⟩
  | _ => ⟨false, true, t.rest, tr.2, evs ++ [Event.log LogEvent.gameFinished]⟩

/-- One iteration of the `play_all_games` loop (main.py lines 160-194).
The conjunct `s < 400` in each `if` is the truthiness of the Python
response object (`Response.__bool__` is `status_code < 400`). -/
def play_one_ticket (oracle : List Outcome) (rng : List Nat) : TicketTrace :=
  let t1 := send_request "POST" urlGameStart Option.none 3 3 oracle
  match t1.result with
  | ExecResult.exit => ⟨true, false, t1.rest, rng, t1.events⟩
  | ExecResult.got s txt _ =>
    -- `if start_response and start_response.status_code == 400 and "active game" in start_response.text`
    if s < 400 ∧ s = 400 ∧ containsSub "active game" txt = true then
      let h := handle_stuck_game txt t1.rest rng
      if h.exited then
        ⟨true, false, h.rest, h.rngRest, t1.events ++ h.events⟩
      else if h.ok then
        let t2 := send_request "POST" urlGameStart Option.none 3 3 h.rest
        let evs := t1.events ++ h.events ++
          [Event.log LogEvent.healOk, Event.sleep 10] ++ t2.events
        match t2.result with
        | ExecResult.exit => ⟨true, false, t2.rest, h.rngRest, evs⟩
        | ExecResult.got s2 _ _ =>
          if s2 < 400 ∧ (s2 = 200 ∨ s2 = 201) then
            let f := finish_game t2.rest h.rngRest
            ⟨f.exited, f.played, f.rest, f.rngRest, evs ++ f.events⟩
          else
            ⟨false, false, t2.rest, h.rngRest, evs ++ [Event.log LogEvent.startFail]⟩
        | ExecResult.null =>
            ⟨false, false, t2.rest, h.rngRest, evs ++ [Event.log LogEvent.startFail]⟩
      else
        ⟨false, false, h.rest, h.rngRest,
          t1.events ++ h.events ++ [Event.log LogEvent.selfHealFail]⟩
    -- `if start_response and start_response.status_code in [200, 201]`
    else if s < 400 ∧ (s = 200 ∨ s = 201) then
      let f := finish_game t1.rest rng
      ⟨f.exited, f.played, f.rest, f.rngRest, t1.events ++ f.events⟩
    else
      ⟨false, false, t1.rest, rng, t1.events ++ [Event.log LogEvent.startFail]⟩
  | ExecResult.null =>
      ⟨false, false, t1.rest, rng, t1.events ++ [Event.log LogEvent.startFail]⟩

/-- Trace of a whole `play_all_games` run. -/
structure PlayTrace where
  exited : Bool
  rest : List Outcome
  rngRest : List Nat
  events : List Event
  played : Nat
deriving DecidableEq

/-- The `for i in range(tickets_available)` loop with `rem` iterations left.
Only an iteration that played its game reaches the inter-ticket sleep
(`random.randint(15, 25)` seconds, skipped on the final ticket); both
failure branches `continue` past it. -/
def play_games_go : Nat → List Outcome → List Nat → PlayTrace
  | 0, oracle, rng => ⟨false, oracle, rng, [], 0⟩
  | Nat.succ rem, oracle, rng =>
    let t := play_one_ticket oracle rng
    if t.exited then ⟨true, t.rest, t.rngRest, t.events, 0⟩
    else
      let played1 : Nat := if t.played then 1 else 0
      if t.played ∧ rem ≠ 0 then
        let dr := takeRng t.rngRest
        let rest := play_games_go rem t.rest dr.2
        ⟨rest.exited, rest.rest, rest.rngRest,
          t.events ++ [Event.sleep (randint 15 25 dr.1)] ++ rest.events,
          played1 + rest.played⟩
      else
        let rest := play_games_go rem t.rest t.rngRest
        ⟨rest.exited, rest.rest, rest.rngRest,
          t.events ++ rest.events, played1 + rest.played⟩

/-- `main.py play_all_games(tickets_available)`: a zero ticket count logs
and returns immediately; otherwise the loop runs once per ticket. -/
def play_all_games (ticketsAvailable : Nat) (oracle : List Outcome) (rng : List Nat) :
    PlayTrace :=
  if ticketsAvailable = 0 then
    ⟨false, oracle, rng, [Event.log LogEvent.noTickets], 0⟩
  else
    play_games_go ticketsAvailable oracle rng

/-- Result of `fetch_account_stats`. -/
inductive StatsResult where
  | exit : StatsResult
  | stats : StatsJson → StatsResult
  | failed : StatsResult
deriving DecidableEq

/-- Trace of one `fetch_account_stats` invocation. -/
structure StatsTrace where
  result : StatsResult
  rest : List Outcome
  events : List Event
deriving DecidableEq

/-- `main.py fetch_account_stats()`: GET the profile; on a 200 whose body
parses as JSON return the stats record; on a parse failure or any other
outcome return `None`. -/
def fetch_account_stats (oracle : List Outcome) : StatsTrace :=
  let t := send_request "GET" urlUserProfile Option.none 3 3 oracle
  match t.result with
  | ExecResult.exit => ⟨StatsResult.exit, t.rest, t.events⟩
  | ExecResult.got s _ j =>
    -- `if response and response.status_code == 200`
    if s < 400 ∧ s = 200 then
      match j with
      | Option.some jv =>
        ⟨StatsResult.stats jv, t.rest, t.events ++ [Event.log LogEvent.statsUpdated]⟩
      | Option.none =>
        ⟨StatsResult.failed, t.rest, t.events ++ [Event.log LogEvent.statsParseFail]⟩
    else
      ⟨StatsResult.failed, t.rest, t.events ++ [Event.log LogEvent.statsFetchFail]⟩
  | ExecResult.null =>
      ⟨StatsResult.failed, t.rest, t.events ++ [Event.log LogEvent.statsFetchFail]⟩

/-- `initial_stats.get('username', 'User')`. -/
def statsUsername (j : StatsJson) : String := j.username.getD "User"

/-- `stats.get('overPoints', 0)`. -/
def statsOverPoints (j : StatsJson) : Int := j.overPoints.getD 0

/-- `stats.get('coins', 0)`. -/
def statsCoins (j : StatsJson) : Int := j.coins.getD 0

/-- `tickets_to_play = initial_stats.get('tickets', 0)` (main.py line 233). -/
def statsTickets (j : StatsJson) : Int := j.tickets.getD 0

/-! ### Trace bookkeeping lemmas -/

@[simp]
theorem callsOf_nil : callsOf [] = [] := rfl

@[simp]
theorem callsOf_cons_call (c : Call) (evs : List Event) :
    callsOf (Event.call c :: evs) = c :: callsOf evs := rfl

@[simp]
theorem callsOf_cons_sleep (n : Nat) (evs : List Event) :
    callsOf (Event.sleep n :: evs) = callsOf evs := rfl

@[simp]
theorem callsOf_cons_log (e : LogEvent) (evs : List Event) :
    callsOf (Event.log e :: evs) = callsOf evs := rfl

@[simp]
theorem callsOf_append (a b : List Event) :
    callsOf (a ++ b) = callsOf a ++ callsOf b := by
  simp [callsOf, List.filterMap_append]

@[simp]
theorem sleepsOf_nil : sleepsOf [] = [] := rfl

@[simp]
theorem sleepsOf_cons_call (c : Call) (evs : List Event) :
    sleepsOf (Event.call c :: evs) = sleepsOf evs := rfl

@[simp]
theorem sleepsOf_cons_sleep (n : Nat) (evs : List Event) :
    sleepsOf (Event.sleep n :: evs) = n :: sleepsOf evs := rfl

@[simp]
theorem sleepsOf_cons_log (e : LogEvent) (evs : List Event) :
    sleepsOf (Event.log e :: evs) = sleepsOf evs := rfl

@[simp]
theorem sleepsOf_append (a b : List Event) :
    sleepsOf (a ++ b) = sleepsOf a ++ sleepsOf b := by
  simp [sleepsOf, List.filterMap_append]

/-! ### Request-executor unfolding lemmas -/

theorem send_request_zero (m u : String) (p : Option Payload) (b : Nat)
    (oracle : List Outcome) :
    send_request m u p 0 b oracle =
      ⟨ExecResult.null, oracle, [Event.log (LogEvent.requestFailed u)]⟩ := rfl

theorem send_request_401 (m u : String) (p : Option Payload) (r b : Nat)
    (txt : String) (j : Option StatsJson) (rest : List Outcome) :
    send_request m u p (r + 1) b (Outcome.resp 401 txt j :: rest) =
      ⟨ExecResult.exit, rest, [Event.call ⟨m, u, p⟩, Event.log LogEvent.criticalAuth]⟩ := rfl

theorem send_request_return (m u : String) (p : Option Payload) (r b s : Nat)
    (txt : String) (j : Option StatsJson) (rest : List Outcome)
    (h1 : s ≠ 401) (h2 : s < 500) :
    send_request m u p (r + 1) b (Outcome.resp s txt j :: rest) =
      ⟨ExecResult.got s txt j, rest, [Event.call ⟨m, u, p⟩]⟩ := by
  simp [send_request, takeOutcome, h1, h2]

theorem send_request_step (m u : String) (p : Option Payload) (r b : Nat)
    (o : Outcome) (rest : List Outcome) (h : retryable o = true) :
    ∃ lg, send_request m u p (r + 1) b (o :: rest) =
      ⟨(send_request m u p r b rest).result, (send_request m u p r b rest).rest,
        Event.call ⟨m, u, p⟩ :: Event.log lg :: Event.sleep b ::
          (send_request m u p r b rest).events⟩ := by
  cases o with
  | exn => exact ⟨LogEvent.networkError, rfl⟩
  | resp s txt j =>
    have hs : 500 ≤ s := by simpa [retryable] using h
    have h1 : ¬ s = 401 := by omega
    have h2 : ¬ s < 500 := by omega
    exact ⟨LogEvent.serverError s, by simp [send_request, takeOutcome, h1, h2]⟩

theorem send_request_head_call (m u : String) (p : Option Payload) (r b : Nat)
    (oracle : List Outcome) :
    ∃ tl, (send_request m u p (r + 1) b oracle).events = Event.call ⟨m, u, p⟩ :: tl := by
  rcases oracle with _ | ⟨o, rest⟩
  · exact ⟨_, rfl⟩
  · cases o with
    | exn => exact ⟨_, rfl⟩
    | resp s txt j =>
      by_cases h1 : s = 401
      · subst h1; exact ⟨_, rfl⟩
      · by_cases h2 : s < 500
        · exact ⟨_, by rw [send_request_return m u p r b s txt j rest h1 h2]⟩
        · have h : retryable (Outcome.resp s txt j) = true := by
            simp [retryable]; omega
          obtain ⟨lg, heq⟩ := send_request_step m u p r b (Outcome.resp s txt j) rest h
          exact ⟨_, by rw [heq]⟩

/-- Every HTTP attempt issued by one `send_request` invocation carries that
invocation's method, url and payload. -/
theorem send_request_calls_eq (m u : String) (p : Option Payload) (b : Nat) :
    ∀ (r : Nat) (oracle : List Outcome),
      ∀ c ∈ callsOf (send_request m u p r b oracle).events, c = (⟨m, u, p⟩ : Call) := by
  intro r
  induction r with
  | zero => intro oracle c hc; simp [send_request_zero] at hc
  | succ r ih =>
    intro oracle c hc
    rcases oracle with _ | ⟨o, rest⟩
    · rw [show send_request m u p (r + 1) b [] =
          ⟨(send_request m u p r b []).result, (send_request m u p r b []).rest,
            Event.call ⟨m, u, p⟩ :: Event.log LogEvent.networkError :: Event.sleep b ::
              (send_request m u p r b []).events⟩ from rfl] at hc
      simp at hc
      rcases hc with hc | hc
      · exact hc
      · exact ih [] c hc
    · cases o with
      | exn =>
        obtain ⟨lg, heq⟩ := send_request_step m u p r b Outcome.exn rest rfl
        rw [heq] at hc
        simp at hc
        rcases hc with hc | hc
        · exact hc
        · exact ih rest c hc
      | resp s txt j =>
        by_cases h1 : s = 401
        · subst h1
          rw [send_request_401] at hc
          simpa using hc
        · by_cases h2 : s < 500
          · rw [send_request_return m u p r b s txt j rest h1 h2] at hc
            simpa using hc
          · have h : retryable (Outcome.resp s txt j) = true := by
              simp [retryable]; omega
            obtain ⟨lg, heq⟩ := send_request_step m u p r b (Outcome.resp s txt j) rest h
            rw [heq] at hc
            simp at hc
            rcases hc with hc | hc
            · exact hc
            · exact ih rest c hc

/-! ### Randomness bounds -/

theorem randint_ge (lo hi seed : Nat) : lo ≤ randint lo hi seed := by
  simp [randint]

theorem randint_le (lo hi seed : Nat) (h : lo ≤ hi) : randint lo hi seed ≤ hi := by
  have hpos : 0 < hi + 1 - lo := by omega
  have := Nat.mod_lt seed hpos
  simp only [randint]
  omega

/-- Running `send_request` against an oracle whose first `pre` outcomes are
all retryable: those attempts are consumed one by one, each contributing
one HTTP attempt and one flat `backoff` sleep, and the executor continues
with the remaining budget on the remaining oracle. -/
theorem send_request_skips_retryable (m u : String) (p : Option Payload) (b : Nat) :
    ∀ (pre : List Outcome) (retries : Nat) (oracle : List Outcome),
      (∀ x ∈ pre, retryable x = true) → pre.length < retries →
      ∃ evs,
        send_request m u p retries b (pre ++ oracle) =
          ⟨(send_request m u p (retries - pre.length) b oracle).result,
           (send_request m u p (retries - pre.length) b oracle).rest,
           evs ++ (send_request m u p (retries - pre.length) b oracle).events⟩ ∧
        (callsOf evs).length = pre.length ∧
        sleepsOf evs = List.replicate pre.length b := by
  intro pre
  induction pre with
  | nil =>
    intro retries oracle _ _
    exact ⟨[], by simp, by simp, by simp⟩
  | cons o pre ih =>
    intro retries oracle hpre hlen
    rcases retries with _ | r
    · omega
    · have ho : retryable o = true := hpre o (by simp)
      obtain ⟨lg, heq⟩ := send_request_step m u p r b o (pre ++ oracle) ho
      obtain ⟨evs, heq2, hc, hs⟩ :=
        ih r oracle (fun x hx => hpre x (by simp [hx])) (by simpa using hlen)
      refine ⟨Event.call ⟨m, u, p⟩ :: Event.log lg :: Event.sleep b :: evs, ?_, ?_, ?_⟩
      · rw [List.cons_append, heq, heq2]
        simp [List.length_cons, Nat.succ_sub_succ]
      · simp [hc]
      · simp [hs, List.replicate_succ]

/-- Analogue of `send_request_step` for the overnads.py executor: attempt
`i` fails on a retryable outcome, sleeps `backoffFactor * (i + 1)` and
continues. -/
theorem retry_go_step (u m : String) (p : Option Payload) (bf i r : Nat)
    (o : Outcome) (rest : List Outcome) (h : retryable o = true) :
    ∃ lg, send_request_with_retry_go u m p bf i (r + 1) (o :: rest) =
      ⟨(send_request_with_retry_go u m p bf (i + 1) r rest).result,
       (send_request_with_retry_go u m p bf (i + 1) r rest).rest,
       Event.call ⟨m, u, p⟩ :: Event.log lg :: Event.sleep (bf * (i + 1)) ::
         (send_request_with_retry_go u m p bf (i + 1) r rest).events⟩ := by
  cases o with
  | exn => exact ⟨LogEvent.networkError, rfl⟩
  | resp s txt j =>
    have hs : 500 ≤ s := by simpa [retryable] using h
    have h1 : ¬ s = 401 := by omega
    have h2 : ¬ s < 500 := by omega
    exact ⟨LogEvent.serverError s,
      by simp [send_request_with_retry_go, takeOutcome, h1, h2]⟩

/-- `send_request` exhausts its whole retry budget when every consumed
outcome is retryable: `retries` attempts, a flat `backoff` sleep after each
one, a `null` result, and the failing URL logged. -/
theorem send_request_exhaust (m u : String) (p : Option Payload) (b : Nat) :
    ∀ (retries : Nat) (oracle : List Outcome),
      (∀ x ∈ oracle.take retries, retryable x = true) →
      (send_request m u p retries b oracle).result = ExecResult.null ∧
      (send_request m u p retries b oracle).rest = oracle.drop retries ∧
      (callsOf (send_request m u p retries b oracle).events).length = retries ∧
      sleepsOf (send_request m u p retries b oracle).events = List.replicate retries b ∧
      Event.log (LogEvent.requestFailed u) ∈ (send_request m u p retries b oracle).events := by
  intro retries
  induction retries with
  | zero => intro oracle _; simp [send_request_zero]
  | succ r ih =>
    intro oracle htake
    rcases oracle with _ | ⟨o, rest⟩
    · rw [show send_request m u p (r + 1) b [] =
          ⟨(send_request m u p r b []).result, (send_request m u p r b []).rest,
            Event.call ⟨m, u, p⟩ :: Event.log LogEvent.networkError :: Event.sleep b ::
              (send_request m u p r b []).events⟩ from rfl]
      obtain ⟨h1, h2, h3, h4, h5⟩ := ih [] (by simp)
      exact ⟨h1, by simpa using h2, by simp [h3], by simp [h4, List.replicate_succ],
        by simp [h5]⟩
    · have ho : retryable o = true := htake o (by simp)
      obtain ⟨lg, heq⟩ := send_request_step m u p r b o rest ho
      rw [heq]
      obtain ⟨h1, h2, h3, h4, h5⟩ := ih rest (by
        intro x hx
        exact htake x (by simp [hx]))
      exact ⟨h1, by simpa using h2, by simp [h3], by simp [h4, List.replicate_succ],
        by simp [h5]⟩

/-- `send_request_with_retry_go` starting at attempt index `i` exhausts its
remaining budget on retryable outcomes, with linearly increasing sleeps. -/
theorem retry_go_exhaust (u m : String) (p : Option Payload) (bf : Nat) :
    ∀ (r i : Nat) (oracle : List Outcome),
      (∀ x ∈ oracle.take r, retryable x = true) →
      (send_request_with_retry_go u m p bf i r oracle).result = ExecResult.null ∧
      (send_request_with_retry_go u m p bf i r oracle).rest = oracle.drop r ∧
      (callsOf (send_request_with_retry_go u m p bf i r oracle).events).length = r ∧
      sleepsOf (send_request_with_retry_go u m p bf i r oracle).events
        = (List.range r).map (fun k => bf * (i + k + 1)) ∧
      Event.log (LogEvent.requestFailed u)
        ∈ (send_request_with_retry_go u m p bf i r oracle).events := by
  intro r
  induction r with
  | zero => intro i oracle _; simp [send_request_with_retry_go]
  | succ r ih =>
    intro i oracle htake
    have hranges : (List.range (r + 1)).map (fun k => bf * (i + k + 1))
        = bf * (i + 1) :: (List.range r).map (fun k => bf * (i + 1 + k + 1)) := by
      rw [List.range_succ_eq_map, List.map_cons, List.map_map]
      refine congrArg₂ _ (by ring_nf) (List.map_congr_left ?_)
      intro k _
      simp only [Function.comp, Nat.succ_eq_add_one]
      ring_nf
    rcases oracle with _ | ⟨o, rest⟩
    · rw [show send_request_with_retry_go u m p bf i (r + 1) [] =
          ⟨(send_request_with_retry_go u m p bf (i + 1) r []).result,
           (send_request_with_retry_go u m p bf (i + 1) r []).rest,
           Event.call ⟨m, u, p⟩ :: Event.log LogEvent.networkError ::
             Event.sleep (bf * (i + 1)) ::
             (send_request_with_retry_go u m p bf (i + 1) r []).events⟩ from rfl]
      obtain ⟨h1, h2, h3, h4, h5⟩ := ih (i + 1) [] (by simp)
      refine ⟨h1, by simpa using h2, by simp [h3], ?_, by simp [h5]⟩
      simp [h4, hranges]
    · have ho : retryable o = true := htake o (by simp)
      obtain ⟨lg, heq⟩ := retry_go_step u m p bf i r o rest ho
      rw [heq]
      obtain ⟨h1, h2, h3, h4, h5⟩ := ih (i + 1) rest (by
        intro x hx
        exact htake x (by simp [hx]))
      refine ⟨h1, by simpa using h2, by simp [h3], ?_, by simp [h5]⟩
      simp [h4, hranges]

/-! ### Play-loop characterization lemmas -/

/-- The end payload built by `finish_game` from the seed list `rng`. -/
def endPayload (rng : List Nat) : Payload :=
  ⟨Option.none, randint 90 110 (takeRng rng).1,
    [⟨"coin", randint 1 4 (takeRng (takeRng rng).2).1⟩,
     ⟨"ticket", randint 0 4 (takeRng (takeRng (takeRng rng).2).2).1⟩]⟩

/-- `finish_game` always sleeps 30 seconds and then issues the end request
as its first HTTP attempt. -/
theorem finish_game_events (oracle : List Outcome) (rng : List Nat) :
    ∃ tail, (finish_game oracle rng).events =
      Event.log LogEvent.gameStarted :: Event.sleep 30 ::
      Event.log LogEvent.endingGame ::
      Event.call ⟨"POST", urlGameEnd, Option.some (endPayload rng)⟩ :: tail := by
  obtain ⟨tl, htl⟩ := send_request_head_call "POST" urlGameEnd
    (Option.some (endPayload rng)) 2 3 oracle
  simp only [finish_game]
  cases hres : (send_request "POST" urlGameEnd
      (Option.some ⟨Option.none, randint 90 110 (takeRng rng).1,
        [⟨"coin", randint 1 4 (takeRng (takeRng rng).2).1⟩,
         ⟨"ticket", randint 0 4 (takeRng (takeRng (takeRng rng).2).2).1⟩]⟩) 3 3
      oracle).result with
  | exit =>
    refine ⟨tl, ?_⟩
    simp only [hres]
    rw [show (⟨Option.none, randint 90 110 (takeRng rng).1,
        [⟨"coin", randint 1 4 (takeRng (takeRng rng).2).1⟩,
         ⟨"ticket", randint 0 4 (takeRng (takeRng (takeRng rng).2).2).1⟩]⟩ : Payload)
        = endPayload rng from rfl]
    simp [htl]
  | got s2 t2 j2 =>
    refine ⟨tl ++ [Event.log LogEvent.gameFinished], ?_⟩
    simp only [hres]
    rw [show (⟨Option.none, randint 90 110 (takeRng rng).1,
        [⟨"coin", randint 1 4 (takeRng (takeRng rng).2).1⟩,
         ⟨"ticket", randint 0 4 (takeRng (takeRng (takeRng rng).2).2).1⟩]⟩ : Payload)
        = endPayload rng from rfl]
    simp [htl]
  | null =>
    refine ⟨tl ++ [Event.log LogEvent.gameFinished], ?_⟩
    simp only [hres]
    rw [show (⟨Option.none, randint 90 110 (takeRng rng).1,
        [⟨"coin", randint 1 4 (takeRng (takeRng rng).2).1⟩,
         ⟨"ticket", randint 0 4 (takeRng (takeRng (takeRng rng).2).2).1⟩]⟩ : Payload)
        = endPayload rng from rfl]
    simp [htl]

/-- `finish_game` when the end request comes back with a response (any
status except a 401 exit): the iteration counts as played and the trace is
fully determined. -/
theorem finish_game_got (s : Nat) (t2 : String) (j2 : Option StatsJson)
    (rest : List Outcome) (rng : List Nat) (h401 : s ≠ 401) (h500 : s < 500) :
    finish_game (Outcome.resp s t2 j2 :: rest) rng =
      ⟨false, true, rest, (takeRng (takeRng (takeRng rng).2).2).2,
        [Event.log LogEvent.gameStarted, Event.sleep 30,
         Event.log LogEvent.endingGame,
         Event.call ⟨"POST", urlGameEnd, Option.some (endPayload rng)⟩,
         Event.log LogEvent.gameFinished]⟩ := by
  have ht := send_request_return "POST" urlGameEnd (Option.some (endPayload rng))
    2 3 s t2 j2 rest h401 h500
  simp only [finish_game]
  rw [show (⟨Option.none, randint 90 110 (takeRng rng).1,
      [⟨"coin", randint 1 4 (takeRng (takeRng rng).2).1⟩,
       ⟨"ticket", randint 0 4 (takeRng (takeRng (takeRng rng).2).2).1⟩]⟩ : Payload)
      = endPayload rng from rfl]
  simp [ht]

/-- A loop iteration whose start request is answered 200/201 on the first
attempt proceeds to `finish_game`. -/
theorem play_one_ticket_success (s : Nat) (txt : String) (j : Option StatsJson)
    (rest : List Outcome) (rng : List Nat) (hs : s = 200 ∨ s = 201) :
    play_one_ticket (Outcome.resp s txt j :: rest) rng =
      ⟨(finish_game rest rng).exited, (finish_game rest rng).played,
       (finish_game rest rng).rest, (finish_game rest rng).rngRest,
       Event.call ⟨"POST", urlGameStart, Option.none⟩ :: (finish_game rest rng).events⟩ := by
  have h401 : s ≠ 401 := by rcases hs with h | h <;> omega
  have h500 : s < 500 := by rcases hs with h | h <;> omega
  have ht1 := send_request_return "POST" urlGameStart Option.none 2 3 s txt j rest
    h401 h500
  have hnc : ¬ (s < 400 ∧ s = 400 ∧ containsSub "active game" txt = true) := by
    rintro ⟨-, h400, -⟩
    rcases hs with h | h <;> omega
  have hok : s < 400 ∧ (s = 200 ∨ s = 201) := ⟨by rcases hs with h | h <;> omega, hs⟩
  simp only [play_one_ticket, ht1]
  rw [if_neg hnc, if_pos hok]
  simp

/-- A loop iteration whose start request is answered with any 4xx other
than 401 is skipped: no recovery (the conflict branch requires a truthy
response, impossible for a 4xx status), no end request, not counted as
played. -/
theorem play_one_ticket_skip_4xx (s : Nat) (txt : String) (j : Option StatsJson)
    (rest : List Outcome) (rng : List Nat) (h400 : 400 ≤ s) (h500 : s < 500)
    (h401 : s ≠ 401) :
    play_one_ticket (Outcome.resp s txt j :: rest) rng =
      ⟨false, false, rest, rng,
        [Event.call ⟨"POST", urlGameStart, Option.none⟩,
         Event.log LogEvent.startFail]⟩ := by
  have ht1 := send_request_return "POST" urlGameStart Option.none 2 3 s txt j rest
    h401 h500
  have hnc : ¬ (s < 400 ∧ s = 400 ∧ containsSub "active game" txt = true) := by
    rintro ⟨hlt, -, -⟩
    omega
  have hnok : ¬ (s < 400 ∧ (s = 200 ∨ s = 201)) := by
    rintro ⟨hlt, -⟩
    omega
  simp only [play_one_ticket, ht1]
  rw [if_neg hnc, if_neg hnok]
  simp

/-- `play_all_games` with a zero ticket count: the no-tickets log only. -/
theorem play_all_games_zero (oracle : List Outcome) (rng : List Nat) :
    play_all_games 0 oracle rng =
      ⟨false, oracle, rng, [Event.log LogEvent.noTickets], 0⟩ := rfl

/-! ### Claim theorems -/

/-- C1: for every request issued through the request executor, if the
response status is 401 then the executor logs a critical error and
terminates the entire process immediately, and no subsequent network call
is ever made after that response.  Formally: whenever the attempt at
position `pre.length` (within the retry budget, all earlier attempts
retryable) receives a 401, `send_request` yields the process-exit result,
exactly `pre.length + 1` attempts have hit the wire, the rest of the
network oracle is untouched, and the critical-auth log line is emitted;
moreover the play loop propagates a process exit: a loop iteration that
exited produces no further events (hence no further network calls). -/
theorem c1_auth_401_terminates (m u : String) (p : Option Payload) (b : Nat)
    (pre post : List Outcome) (txt : String) (j : Option StatsJson) (retries : Nat)
    (hpre : ∀ x ∈ pre, retryable x = true) (hlen : pre.length < retries) :
    ((send_request m u p retries b (pre ++ Outcome.resp 401 txt j :: post)).result
        = ExecResult.exit ∧
      (send_request m u p retries b (pre ++ Outcome.resp 401 txt j :: post)).rest = post ∧
      (callsOf (send_request m u p retries b
        (pre ++ Outcome.resp 401 txt j :: post)).events).length = pre.length + 1 ∧
      Event.log LogEvent.criticalAuth
        ∈ (send_request m u p retries b (pre ++ Outcome.resp 401 txt j :: post)).events) ∧
    ∀ (rem : Nat) (oracle2 : List Outcome) (rng2 : List Nat),
      (play_one_ticket oracle2 rng2).exited = true →
      (play_games_go (rem + 1) oracle2 rng2).exited = true ∧
      (play_games_go (rem + 1) oracle2 rng2).events = (play_one_ticket oracle2 rng2).events := by
  constructor
  · obtain ⟨evs, heq, hc, _⟩ :=
      send_request_skips_retryable m u p b pre retries (Outcome.resp 401 txt j :: post)
        hpre hlen
    obtain ⟨k, hk⟩ : ∃ k, retries - pre.length = k + 1 :=
      ⟨retries - pre.length - 1, by omega⟩
    rw [heq, hk, send_request_401]
    refine ⟨rfl, rfl, ?_, ?_⟩
    · simp [hc]
    · simp
  · intro rem oracle2 rng2 hx
    constructor <;> simp [play_games_go, hx]

/-- Witness for C1: a concrete run — one network exception, then a 401 —
terminates the process with exactly two attempts on the wire. -/
theorem c1_auth_401_terminates_witness :
    (send_request "POST" urlGameStart Option.none 3 3
        ([Outcome.exn] ++ Outcome.resp 401 "Unauthorized" Option.none ::
          [Outcome.resp 200 "" Option.none])).result = ExecResult.exit ∧
    (callsOf (send_request "POST" urlGameStart Option.none 3 3
        ([Outcome.exn] ++ Outcome.resp 401 "Unauthorized" Option.none ::
          [Outcome.resp 200 "" Option.none])).events).length = 1 + 1 :=
  ⟨(c1_auth_401_terminates "POST" urlGameStart Option.none 3 [Outcome.exn]
      [Outcome.resp 200 "" Option.none] "Unauthorized" Option.none 3
      (by decide) (by decide)).1.1,
   (c1_auth_401_terminates "POST" urlGameStart Option.none 3 [Outcome.exn]
      [Outcome.resp 200 "" Option.none] "Unauthorized" Option.none 3
      (by decide) (by decide)).1.2.2.1⟩

/-- C2: any response with status below 500 (other than 401) is returned to
the caller on the attempt that received it, with no further attempts;
formally, with all attempts before position `pre.length` retryable, a
response `s < 500`, `s ≠ 401` at that position is handed back as the
result, exactly `pre.length + 1` attempts hit the wire, and the oracle
beyond that response is untouched. -/
theorem c2_sub500_returned_immediately (m u : String) (p : Option Payload) (b : Nat)
    (pre post : List Outcome) (s : Nat) (txt : String) (j : Option StatsJson)
    (retries : Nat) (hpre : ∀ x ∈ pre, retryable x = true)
    (hlen : pre.length < retries) (hs401 : s ≠ 401) (hs500 : s < 500) :
    (send_request m u p retries b (pre ++ Outcome.resp s txt j :: post)).result
        = ExecResult.got s txt j ∧
    (send_request m u p retries b (pre ++ Outcome.resp s txt j :: post)).rest = post ∧
    (callsOf (send_request m u p retries b
      (pre ++ Outcome.resp s txt j :: post)).events).length = pre.length + 1 := by
  obtain ⟨evs, heq, hc, _⟩ :=
    send_request_skips_retryable m u p b pre retries (Outcome.resp s txt j :: post)
      hpre hlen
  obtain ⟨k, hk⟩ : ∃ k, retries - pre.length = k + 1 :=
    ⟨retries - pre.length - 1, by omega⟩
  rw [heq, hk, send_request_return m u p k b s txt j post hs401 hs500]
  refine ⟨rfl, rfl, ?_⟩
  simp [hc]

/-- Witness for C2: a concrete run — a 503, then a 404 — returns the 404
to the caller after exactly two attempts, leaving the rest of the oracle
unconsumed. -/
theorem c2_sub500_returned_immediately_witness :
    (send_request "POST" urlGameStart Option.none 3 3
        ([Outcome.resp 503 "" Option.none] ++ Outcome.resp 404 "nf" Option.none ::
          [Outcome.resp 200 "" Option.none])).result
      = ExecResult.got 404 "nf" Option.none ∧
    (send_request "POST" urlGameStart Option.none 3 3
        ([Outcome.resp 503 "" Option.none] ++ Outcome.resp 404 "nf" Option.none ::
          [Outcome.resp 200 "" Option.none])).rest = [Outcome.resp 200 "" Option.none] :=
  ⟨(c2_sub500_returned_immediately "POST" urlGameStart Option.none 3
      [Outcome.resp 503 "" Option.none] [Outcome.resp 200 "" Option.none] 404 "nf"
      Option.none 3 (by decide) (by decide) (by decide) (by decide)).1,
   (c2_sub500_returned_immediately "POST" urlGameStart Option.none 3
      [Outcome.resp 503 "" Option.none] [Outcome.resp 200 "" Option.none] 404 "nf"
      Option.none 3 (by decide) (by decide) (by decide) (by decide)).2.1⟩

/-- C3: when every attempted outcome is a 5xx or a network exception, the
executor makes exactly `retries` attempts, sleeps the documented backoff
delay between attempts — flat `backoff` seconds in `main.py send_request`,
linear `backoffFactor * attemptNumber` in
`overnads.py send_request_with_retry` — then returns a null result and
logs the failing URL.  Both variants are stated. -/
theorem c3_retry_exhaustion (m u : String) (p : Option Payload) (b bf : Nat)
    (retries : Nat) (oracle : List Outcome)
    (htake : ∀ x ∈ oracle.take retries, retryable x = true) :
    ((send_request m u p retries b oracle).result = ExecResult.null ∧
      (send_request m u p retries b oracle).rest = oracle.drop retries ∧
      (callsOf (send_request m u p retries b oracle).events).length = retries ∧
      sleepsOf (send_request m u p retries b oracle).events = List.replicate retries b ∧
      Event.log (LogEvent.requestFailed u)
        ∈ (send_request m u p retries b oracle).events) ∧
    ((send_request_with_retry u m p retries bf oracle).result = ExecResult.null ∧
      (send_request_with_retry u m p retries bf oracle).rest = oracle.drop retries ∧
      (callsOf (send_request_with_retry u m p retries bf oracle).events).length
        = retries ∧
      sleepsOf (send_request_with_retry u m p retries bf oracle).events
        = (List.range retries).map (fun k => bf * (k + 1)) ∧
      Event.log (LogEvent.requestFailed u)
        ∈ (send_request_with_retry u m p retries bf oracle).events) := by
  refine ⟨send_request_exhaust m u p b retries oracle htake, ?_⟩
  obtain ⟨h1, h2, h3, h4, h5⟩ := retry_go_exhaust u m p bf retries 0 oracle htake
  refine ⟨h1, h2, h3, ?_, h5⟩
  rw [send_request_with_retry, h4]
  exact List.map_congr_left fun k _ => by ring_nf

/-- Witness for C3 at the default budget `retries = 3`: three transient
failures consume all three attempts and produce sleeps `[3, 3, 3]` (flat)
respectively `[3, 6, 9]` (linear). -/
theorem c3_retry_exhaustion_witness :
    (send_request "POST" urlGameStart Option.none 3 3
        [Outcome.exn, Outcome.resp 500 "" Option.none,
          Outcome.resp 503 "" Option.none]).result = ExecResult.null ∧
    sleepsOf (send_request "POST" urlGameStart Option.none 3 3
        [Outcome.exn, Outcome.resp 500 "" Option.none,
          Outcome.resp 503 "" Option.none]).events = [3, 3, 3] ∧
    (send_request_with_retry urlGameStart "POST" Option.none 3 3
        [Outcome.exn, Outcome.resp 500 "" Option.none,
          Outcome.resp 503 "" Option.none]).result = ExecResult.null ∧
    sleepsOf (send_request_with_retry urlGameStart "POST" Option.none 3 3
        [Outcome.exn, Outcome.resp 500 "" Option.none,
          Outcome.resp 503 "" Option.none]).events = [3, 6, 9] := by
  have h := c3_retry_exhaustion "POST" urlGameStart Option.none 3 3 3
    [Outcome.exn, Outcome.resp 500 "" Option.none, Outcome.resp 503 "" Option.none]
    (by decide)
  refine ⟨h.1.1, ?_, h.2.1, ?_⟩
  · rw [h.1.2.2.2.1]; rfl
  · rw [h.2.2.2.2.1]; rfl

/-- C4: a conflict body from which no `Game ID: <hex-with-dashes>` session
identifier can be extracted makes `handle_stuck_game` return false
immediately: no network call, no oracle or rng consumption, only the
parse-failure log line. -/
theorem c4_no_id_no_call (text : String) (oracle : List Outcome) (rng : List Nat)
    (h : extractGameId text = Option.none) :
    handle_stuck_game text oracle rng =
      ⟨false, false, oracle, rng, [Event.log LogEvent.stuckParseFail]⟩ ∧
    callsOf (handle_stuck_game text oracle rng).events = [] := by
  refine ⟨?_, ?_⟩ <;> simp [handle_stuck_game, h]

/-- Witness for C4: the conflict text without any `Game ID:` marker. -/
theorem c4_no_id_no_call_witness :
    handle_stuck_game "You already have an active game."
        [Outcome.resp 200 "" Option.none] [7] =
      ⟨false, false, [Outcome.resp 200 "" Option.none], [7],
        [Event.log LogEvent.stuckParseFail]⟩ :=
  (c4_no_id_no_call "You already have an active game."
    [Outcome.resp 200 "" Option.none] [7] (by decide)).1

/-- C5: once a session identifier has been extracted, `handle_stuck_game`
returns true exactly when the compensating end request comes back with
status 200 or 201; a null response (retry exhaustion) yields false, and a
process exit inside the end request propagates as an exit. -/
theorem c5_recovery_iff_success (text gid : String) (oracle : List Outcome)
    (rng : List Nat) (h : extractGameId text = Option.some gid) :
    (∀ (s : Nat) (t2 : String) (j : Option StatsJson),
      (send_request "POST" urlGameEnd
          (Option.some ⟨Option.some gid, randint 90 110 (takeRng rng).1, []⟩) 3 3
          oracle).result = ExecResult.got s t2 j →
        ((handle_stuck_game text oracle rng).ok = true ↔ (s = 200 ∨ s = 201)) ∧
        (handle_stuck_game text oracle rng).exited = false) ∧
    ((send_request "POST" urlGameEnd
        (Option.some ⟨Option.some gid, randint 90 110 (takeRng rng).1, []⟩) 3 3
        oracle).result = ExecResult.null →
      (handle_stuck_game text oracle rng).ok = false ∧
      (handle_stuck_game text oracle rng).exited = false) ∧
    ((send_request "POST" urlGameEnd
        (Option.some ⟨Option.some gid, randint 90 110 (takeRng rng).1, []⟩) 3 3
        oracle).result = ExecResult.exit →
      (handle_stuck_game text oracle rng).exited = true) := by
  refine ⟨?_, ?_, ?_⟩
  · intro s t2 j hres
    constructor
    · simp only [handle_stuck_game, h, hres]
      split_ifs with hc
      · constructor
        · intro _
          exact hc.2
        · intro _
          rfl
      · constructor
        · intro hfalse
          exact absurd hfalse (by simp)
        · intro hor
          exact absurd ⟨by omega, hor⟩ hc
    · simp only [handle_stuck_game, h, hres]
      split_ifs
      · rfl
      · rfl
  · intro hres
    constructor <;> simp [handle_stuck_game, h, hres]
  · intro hres
    simp [handle_stuck_game, h, hres]

/-- Witness for C5: identifier `ab12-cd` extracted, end request answered
with 200 → recovery succeeds. -/
theorem c5_recovery_iff_success_witness :
    (handle_stuck_game "Game ID: ab12-cd" [Outcome.resp 200 "ok" Option.none] []).ok
      = true :=
  (((c5_recovery_iff_success "Game ID: ab12-cd" "ab12-cd"
      [Outcome.resp 200 "ok" Option.none] [] (by decide)).1 200 "ok" Option.none
      (by decide)).1).mpr (Or.inl rfl)

/-- C6: every HTTP attempt issued by the stuck-session recoverer is a POST
to the game-end endpoint whose payload carries the extracted session id, a
point value in `[90, 110]` and an empty collected-items list — and at
least one such attempt is issued. -/
theorem c6_recovery_payload_shape (text gid : String) (oracle : List Outcome)
    (rng : List Nat) (h : extractGameId text = Option.some gid) :
    callsOf (handle_stuck_game text oracle rng).events ≠ [] ∧
    ∀ c ∈ callsOf (handle_stuck_game text oracle rng).events,
      c.method = "POST" ∧ c.url = urlGameEnd ∧
      ∃ p : Payload, c.payload = Option.some p ∧ p.gameId = Option.some gid ∧
        90 ≤ p.overPoints ∧ p.overPoints ≤ 110 ∧ p.collectedItems = [] := by
  have hev : callsOf (handle_stuck_game text oracle rng).events
      = callsOf (send_request "POST" urlGameEnd
          (Option.some ⟨Option.some gid, randint 90 110 (takeRng rng).1, []⟩) 3 3
          oracle).events := by
    simp only [handle_stuck_game, h]
    cases hres : (send_request "POST" urlGameEnd
        (Option.some ⟨Option.some gid, randint 90 110 (takeRng rng).1, []⟩) 3 3
        oracle).result with
    | exit => simp [hres]
    | got s t2 j =>
      simp only [hres]
      split_ifs <;> simp
    | null => simp [hres]
  constructor
  · rw [hev]
    obtain ⟨tl, htl⟩ := send_request_head_call "POST" urlGameEnd
      (Option.some ⟨Option.some gid, randint 90 110 (takeRng rng).1, []⟩) 2 3 oracle
    rw [htl]
    simp
  · intro c hc
    rw [hev] at hc
    have := send_request_calls_eq "POST" urlGameEnd
      (Option.some ⟨Option.some gid, randint 90 110 (takeRng rng).1, []⟩) 3 3 oracle
      c hc
    subst this
    exact ⟨rfl, rfl, ⟨Option.some gid, randint 90 110 (takeRng rng).1, []⟩, rfl, rfl,
      randint_ge 90 110 _, randint_le 90 110 _ (by omega), rfl⟩

/-- Witness for C6: with identifier `ab` and seed list `[25]` the single
attempt carries payload `{gameId: "ab", overPoints: 94, collectedItems: []}`. -/
theorem c6_recovery_payload_shape_witness :
    (Call.mk "POST" urlGameEnd
        (Option.some ⟨Option.some "ab", 94, []⟩)).method = "POST" ∧
    (Call.mk "POST" urlGameEnd
        (Option.some ⟨Option.some "ab", 94, []⟩)).url = urlGameEnd ∧
    ∃ p : Payload,
      (Call.mk "POST" urlGameEnd
        (Option.some ⟨Option.some "ab", 94, []⟩)).payload = Option.some p ∧
      p.gameId = Option.some "ab" ∧ 90 ≤ p.overPoints ∧ p.overPoints ≤ 110 ∧
      p.collectedItems = [] :=
  (c6_recovery_payload_shape "Game ID: ab" "ab" [Outcome.resp 200 "" Option.none]
      [25] (by decide)).2
    ⟨"POST", urlGameEnd, Option.some ⟨Option.some "ab", 94, []⟩⟩ (by decide)

/-- C7: invoked with a ticket count of zero, the play loop performs no
network call and no sleep; it only logs that no tickets are available and
returns with the oracle and seed list untouched. -/
theorem c7_zero_tickets_noop (oracle : List Outcome) (rng : List Nat) :
    play_all_games 0 oracle rng =
      ⟨false, oracle, rng, [Event.log LogEvent.noTickets], 0⟩ ∧
    callsOf (play_all_games 0 oracle rng).events = [] ∧
    sleepsOf (play_all_games 0 oracle rng).events = [] :=
  ⟨play_all_games_zero oracle rng, rfl, rfl⟩

/-- C8: a ticket iteration whose start response has status 200 or 201
sleeps the fixed 30 seconds before issuing the end request, whose payload
has a point value in `[90, 110]` and a collected-items list of exactly one
coin entry (count in `[1, 4]`) and one ticket entry (count in `[0, 4]`). -/
theorem c8_started_iteration (s : Nat) (txt : String) (j : Option StatsJson)
    (rest : List Outcome) (rng : List Nat) (hs : s = 200 ∨ s = 201) :
    ∃ tail,
      (play_one_ticket (Outcome.resp s txt j :: rest) rng).events =
        Event.call ⟨"POST", urlGameStart, Option.none⟩ ::
        Event.log LogEvent.gameStarted :: Event.sleep 30 ::
        Event.log LogEvent.endingGame ::
        Event.call ⟨"POST", urlGameEnd, Option.some (endPayload rng)⟩ :: tail ∧
      90 ≤ (endPayload rng).overPoints ∧ (endPayload rng).overPoints ≤ 110 ∧
      ∃ c k : Nat,
        (endPayload rng).collectedItems = [⟨"coin", c⟩, ⟨"ticket", k⟩] ∧
        1 ≤ c ∧ c ≤ 4 ∧ k ≤ 4 := by
  obtain ⟨tail, htail⟩ := finish_game_events rest rng
  refine ⟨tail, ?_, randint_ge 90 110 _, randint_le 90 110 _ (by omega), ?_⟩
  · rw [play_one_ticket_success s txt j rest rng hs]
    simp [htail]
  · exact ⟨randint 1 4 (takeRng (takeRng rng).2).1,
      randint 0 4 (takeRng (takeRng (takeRng rng).2).2).1, rfl,
      randint_ge 1 4 _, randint_le 1 4 _ (by omega), randint_le 0 4 _ (by omega)⟩

/-- Witness for C8 at a concrete started ticket. -/
theorem c8_started_iteration_witness :
    ∃ tail,
      (play_one_ticket (Outcome.resp 200 "ok" Option.none ::
          [Outcome.resp 201 "" Option.none]) [5, 2, 3]).events =
        Event.call ⟨"POST", urlGameStart, Option.none⟩ ::
        Event.log LogEvent.gameStarted :: Event.sleep 30 ::
        Event.log LogEvent.endingGame ::
        Event.call ⟨"POST", urlGameEnd, Option.some (endPayload [5, 2, 3])⟩ :: tail ∧
      90 ≤ (endPayload [5, 2, 3]).overPoints ∧
      (endPayload [5, 2, 3]).overPoints ≤ 110 ∧
      ∃ c k : Nat,
        (endPayload [5, 2, 3]).collectedItems = [⟨"coin", c⟩, ⟨"ticket", k⟩] ∧
        1 ≤ c ∧ c ≤ 4 ∧ k ≤ 4 :=
  c8_started_iteration 200 "ok" Option.none [Outcome.resp 201 "" Option.none]
    [5, 2, 3] (Or.inl rfl)

/-- C9 counterexample: the claim says an unclassified 4xx from the end
call makes the ticket be "skipped rather than counted as played".  In the
code the end response is never inspected: with a start answered 200 and an
end answered 404, the ticket is still counted as played (`played = 1`,
success log emitted), and the 404 end response was indeed received (both
oracle entries consumed, one start and one end call on the wire). -/
theorem c9_counterexample_end_4xx_still_played :
    (play_all_games 1 [Outcome.resp 200 "started" Option.none,
        Outcome.resp 404 "bad request" Option.none] []).played = 1 ∧
    callsOf (play_all_games 1 [Outcome.resp 200 "started" Option.none,
        Outcome.resp 404 "bad request" Option.none] []).events =
      [⟨"POST", urlGameStart, Option.none⟩,
       ⟨"POST", urlGameEnd,
         Option.some ⟨Option.none, 90, [⟨"coin", 1⟩, ⟨"ticket", 0⟩]⟩⟩] ∧
    (play_all_games 1 [Outcome.resp 200 "started" Option.none,
        Outcome.resp 404 "bad request" Option.none] []).rest = [] ∧
    Event.log LogEvent.gameFinished ∈
      (play_all_games 1 [Outcome.resp 200 "started" Option.none,
        Outcome.resp 404 "bad request" Option.none] []).events := by
  decide

set_option linter.unusedVariables false in
/-- C9 amended: an unclassified 4xx from the start call is returned
without retry and makes the ticket be skipped and not counted as played
(one attempt on the wire, oracle beyond it untouched); an unclassified
4xx from the end call is likewise returned without retry but its status
is ignored — the ticket is still counted as played. -/
theorem c9_unclassified_4xx_behavior (s s2 : Nat) (txt txt2 txt3 : String)
    (j j2 j3 : Option StatsJson) (rest rest2 : List Outcome)
    (rng rng2 : List Nat)
    (hs4 : 400 ≤ s) (hs5 : s < 500) (hs401 : s ≠ 401)
    (hs4' : 400 ≤ s2) (hs5' : s2 < 500) (hs401' : s2 ≠ 401) :
    ((play_one_ticket (Outcome.resp s txt j :: rest) rng).played = false ∧
      callsOf (play_one_ticket (Outcome.resp s txt j :: rest) rng).events
        = [⟨"POST", urlGameStart, Option.none⟩] ∧
      (play_one_ticket (Outcome.resp s txt j :: rest) rng).rest = rest) ∧
    ((play_one_ticket (Outcome.resp 200 txt2 j2 ::
        Outcome.resp s2 txt3 j3 :: rest2) rng2).played = true ∧
      callsOf (play_one_ticket (Outcome.resp 200 txt2 j2 ::
          Outcome.resp s2 txt3 j3 :: rest2) rng2).events =
        [⟨"POST", urlGameStart, Option.none⟩,
         ⟨"POST", urlGameEnd, Option.some (endPayload rng2)⟩]) := by
  constructor
  · rw [play_one_ticket_skip_4xx s txt j rest rng hs4 hs5 hs401]
    exact ⟨rfl, rfl, rfl⟩
  · rw [play_one_ticket_success 200 txt2 j2 (Outcome.resp s2 txt3 j3 :: rest2) rng2
      (Or.inl rfl)]
    rw [finish_game_got s2 txt3 j3 rest2 rng2 hs401' hs5']
    exact ⟨rfl, rfl⟩

/-- Witness for the amended C9: a 403 start is skipped and not counted; a
200 start followed by a 404 end is still counted as played. -/
theorem c9_unclassified_4xx_behavior_witness :
    (play_one_ticket [Outcome.resp 403 "forbidden" Option.none] []).played = false ∧
    (play_one_ticket [Outcome.resp 200 "ok" Option.none,
        Outcome.resp 404 "nf" Option.none] []).played = true :=
  ⟨(c9_unclassified_4xx_behavior 403 404 "forbidden" "ok" "nf" Option.none
      Option.none Option.none [] [] [] [] (by omega) (by omega) (by omega)
      (by omega) (by omega) (by omega)).1.1,
   (c9_unclassified_4xx_behavior 403 404 "forbidden" "ok" "nf" Option.none
      Option.none Option.none [] [] [] [] (by omega) (by omega) (by omega)
      (by omega) (by omega) (by omega)).2.1⟩

/-- C10: a 200 stats response with a JSON-parseable body always yields a
stats record; each absent field reads as its default (placeholder name
`"User"`, 0 for the numeric fields) instead of raising; in particular a
body without a `tickets` field gives a ticket count of 0, and the play
loop run on that count issues no network call. -/
theorem c10_missing_fields_defaults (j : StatsJson) (txt : String)
    (rest : List Outcome) :
    (fetch_account_stats (Outcome.resp 200 txt (Option.some j) :: rest)).result
      = StatsResult.stats j ∧
    (j.username = Option.none → statsUsername j = "User") ∧
    (j.overPoints = Option.none → statsOverPoints j = 0) ∧
    (j.coins = Option.none → statsCoins j = 0) ∧
    (j.tickets = Option.none →
      statsTickets j = 0 ∧
      ∀ (oracle2 : List Outcome) (rng2 : List Nat),
        play_all_games (statsTickets j).toNat oracle2 rng2 =
          ⟨false, oracle2, rng2, [Event.log LogEvent.noTickets], 0⟩ ∧
        callsOf (play_all_games (statsTickets j).toNat oracle2 rng2).events = []) := by
  refine ⟨?_, ?_, ?_, ?_, ?_⟩
  · have ht := send_request_return "GET" urlUserProfile Option.none 2 3 200 txt
      (Option.some j) rest (by omega) (by omega)
    simp only [fetch_account_stats, ht]
    simp
  · intro h
    simp [statsUsername, h]
  · intro h
    simp [statsOverPoints, h]
  · intro h
    simp [statsCoins, h]
  · intro h
    have h0 : statsTickets j = 0 := by simp [statsTickets, h]
    refine ⟨h0, ?_⟩
    intro oracle2 rng2
    rw [h0]
    exact ⟨play_all_games_zero oracle2 rng2, rfl⟩

/-- Witness for C10: the empty JSON object body. -/
theorem c10_missing_fields_defaults_witness :
    (fetch_account_stats [Outcome.resp 200 ""
        (Option.some ⟨Option.none, Option.none, Option.none, Option.none⟩)]).result
      = StatsResult.stats ⟨Option.none, Option.none, Option.none, Option.none⟩ ∧
    statsUsername ⟨Option.none, Option.none, Option.none, Option.none⟩ = "User" ∧
    statsTickets ⟨Option.none, Option.none, Option.none, Option.none⟩ = 0 ∧
    callsOf (play_all_games
        (statsTickets ⟨Option.none, Option.none, Option.none, Option.none⟩).toNat
        [] []).events = [] := by
  have h := c10_missing_fields_defaults
    ⟨Option.none, Option.none, Option.none, Option.none⟩ "" []
  exact ⟨h.1, h.2.1 rfl, (h.2.2.2.2 rfl).1, ((h.2.2.2.2 rfl).2 [] []).2⟩

end Overnads
